import Mathlib

/-!
# Verification of the medical dashboard's data pipeline (`src/medical_app.py`)

Shallow embedding of the data transformation and aggregation pipeline:
normalization (`load_data`, lines 66-105), the sidebar filter (`df_filtered`,
lines 132-138), the KPI aggregates (`total_ingreso`, `total_tx`,
`ticket_promedio`, lines 155-157), the origin group-by (`pie_data`, line 206),
the description group-by and top-N (`top_procedimientos`, lines 232-233) and
the text search (`mask` / `df_results`, lines 252-258).

Modelling conventions:
* A pandas DataFrame of transactions is a `List TransactionRecord`
  (rows in order); column-wise pandas operations become per-row functions
  mapped over the list.
* Dates are a concrete `Date` structure (year/month/day).  The composition
  `pd.to_datetime(x, errors='coerce')` of a raw field is modelled by an
  `Option Date`: `none` covers both an absent value and an unparseable
  string (both yield `NaT` in the code).
* Monetary amounts are `ℚ`: the spec's data model declares `net_amount` a
  decimal; `pd.to_numeric(..., errors='coerce')` on a raw field is an
  `Option ℚ` (`none` = missing or unparseable, i.e. `NaN`).
* `pd.Timestamp.now()` (line 88) is an explicit `now : Date` parameter of
  the normalizer.
* `df['Mes'] = payment_date.dt.strftime('%Y-%m')` produces a year-month
  key used only for equality tests (group-by keys, `isin` membership), so
  it is modelled by the injective encoding `(year, month) : Int × Nat`.
* `groupby` follows pandas defaults: rows whose group key is null (`NaN` /
  `None`) are dropped from the grouping (`dropna=True`); key order is
  irrelevant to every claim (ordering is a presentation concern), so group
  keys are the deduplicated key column.
* `Series.str.contains(q, case=False, na=False)` is modelled as
  case-insensitive literal substring containment (exact for queries
  without regex metacharacters, which is the documented use).
  `astype(str)` on an object column maps Python `None` to the string
  `"None"`, which the embedding reproduces.
-/

/-- A calendar date/timestamp, as much of `pd.Timestamp` as the pipeline
observes (`dt.year`, `dt.strftime('%Y-%m')`, equality). -/
structure Date where
  year : Int
  month : Nat
  day : Nat
deriving DecidableEq, Repr

/-- One raw row of the `transactions` entity as fetched from the store
(`response.data`), with the two coercible fields already carrying their
`errors='coerce'` parse result (`none` = absent or unparseable). -/
structure RawRow where
  payment_date : Option Date
  event_date : Option Date
  net_amount : Option ℚ
  source : String
  description : Option String
  raw_patient_name : Option String
  procedure_code : Option String
deriving DecidableEq, Repr

/-- A normalized transaction row: the coerced fields plus the derived
columns `Mes`, `Año`, `Origen_Label`, `Glosa_Corta` added by `load_data`. -/
structure TransactionRecord where
  payment_date : Option Date
  event_date : Option Date
  net_amount : ℚ
  source : String
  description : Option String
  raw_patient_name : Option String
  procedure_code : Option String
  mes : Int × Nat
  anio : Int
  origen_label : String
  glosa_corta : String
deriving DecidableEq, Repr

/-- `Series.fillna(v)`: replace a missing value by `v` (line 88). -/
def fillna {α : Type} (x : Option α) (v : α) : Option α :=
  some (x.getD v)

/-- `dt.year.astype(int)` (line 94).  On the filled `payment_date` column the
value is always present; `.astype(int)` on `NaT`/`NaN` would fault, modelled
by an arbitrary `0` on the (proved unreachable) `none` branch. -/
def dtYear (x : Option Date) : Int :=
  match x with
  | some d => d.year
  | none => 0

/-- `dt.strftime('%Y-%m')` (line 91), as the injective year-month key. -/
def dtYearMonth (x : Option Date) : Int × Nat :=
  match x with
  | some d => (d.year, d.month)
  | none => (0, 0)

/-- Line 96-100: `df['source'].map({...}).fillna(df['source'])` — the fixed
origin-label lookup, falling back to the raw source code. -/
def origen_label_of (source : String) : String :=
  if source = "CAS_A" then "Alemana Ambulatorio"
  else if source = "CAS_H" then "Alemana Hospitalario"
  else if source = "AMCA" then "AMCA (Sociedad/Privado)"
  else source

/-- Line 103: `df['description'].fillna('Sin Descripción').apply(lambda x:
str(x)[:30] + '...' if len(str(x)) > 30 else str(x))`. -/
def glosa_corta_of (description : Option String) : String :=
  let x := description.getD "Sin Descripción"
  if x.length > 30 then x.take 30 ++ "..." else x

/-- One row of the normalization pipeline of `load_data` (lines 82-103):
coercions, the `payment_date` fill with the current timestamp, and the four
derived columns.  `now` is the `pd.Timestamp.now()` of line 88. -/
def normalizeRow (now : Date) (r : RawRow) : TransactionRecord :=
  let pd := fillna r.payment_date now
  { payment_date := pd
    event_date := r.event_date
    net_amount := (r.net_amount.getD 0 : ℚ)
    source := r.source
    description := r.description
    raw_patient_name := r.raw_patient_name
    procedure_code := r.procedure_code
    mes := dtYearMonth pd
    anio := dtYear pd
    origen_label := origen_label_of r.source
    glosa_corta := glosa_corta_of r.description }

/-- `load_data` (lines 66-105) restricted to its transformation core: the
column-wise type coercions and derived-column assignments applied to every
fetched row (the fetch itself and caching are out of scope; an empty frame
passes through unchanged, which `List.map` reproduces on `[]`). -/
def load_data (now : Date) (rows : List RawRow) : List TransactionRecord :=
  rows.map (normalizeRow now)

/-- Lines 132-138: `df_filtered = df[(df['Año'] == selected_year) &
(df['Origen_Label'].isin(selected_sources))]`, then, only when
`selected_months` is non-empty (Python truthiness of the list), the further
restriction `df_filtered[df_filtered['Mes'].isin(selected_months)]`. -/
def df_filtered (df : List TransactionRecord) (selected_year : Int)
    (selected_sources : List String) (selected_months : List (Int × Nat)) :
    List TransactionRecord :=
  let d1 := df.filter (fun r => decide (r.anio = selected_year ∧ r.origen_label ∈ selected_sources))
  if selected_months.isEmpty then d1
  else d1.filter (fun r => decide (r.mes ∈ selected_months))

/-- Line 128: `sources = df['Origen_Label'].unique()` — the distinct origin
labels present in the (unfiltered) data. -/
def sources_of (df : List TransactionRecord) : List String :=
  (df.map TransactionRecord.origen_label).dedup

/-- Line 155: `total_ingreso = df_filtered['net_amount'].sum()`. -/
def total_ingreso (df : List TransactionRecord) : ℚ :=
  (df.map TransactionRecord.net_amount).sum

/-- Line 156: `total_tx = len(df_filtered)`. -/
def total_tx (df : List TransactionRecord) : Nat :=
  df.length

/-- Line 157: `ticket_promedio = total_ingreso / total_tx if total_tx > 0
else 0`. -/
def ticket_promedio (df : List TransactionRecord) : ℚ :=
  if total_tx df > 0 then total_ingreso df / (total_tx df : ℚ) else 0

/-- Line 206: `pie_data = df_filtered.groupby('Origen_Label')['net_amount']
.sum().reset_index()` — one `(label, summed amount)` row per distinct origin
label.  `origen_label` is a non-null column (the mapping of line 96-100 is
total), so pandas' null-key dropping never applies here. -/
def pie_data (df : List TransactionRecord) : List (String × ℚ) :=
  (sources_of df).map
    (fun k => (k, ((df.filter (fun r => decide (r.origen_label = k))).map
      TransactionRecord.net_amount).sum))

/-- Line 232: `df_filtered.groupby('description')['net_amount'].sum()
.reset_index()`.  `description` is a nullable column and pandas `groupby`
uses `dropna=True` by default: rows whose `description` is null belong to no
group, and the group keys are the distinct non-null descriptions. -/
def groupby_description (df : List TransactionRecord) : List (String × ℚ) :=
  ((df.filterMap TransactionRecord.description).dedup).map
    (fun k => (k, ((df.filter (fun r => decide (r.description = some k))).map
      TransactionRecord.net_amount).sum))

/-- Descending insertion by summed amount (stand-in for
`sort_values('net_amount', ascending=False)`, line 233). -/
def insertDesc (x : String × ℚ) : List (String × ℚ) → List (String × ℚ)
  | [] => [x]
  | y :: ys => if y.2 ≤ x.2 then x :: y :: ys else y :: insertDesc x ys

/-- `sort_values('net_amount', ascending=False)` over grouped rows. -/
def sortDesc : List (String × ℚ) → List (String × ℚ)
  | [] => []
  | x :: xs => insertDesc x (sortDesc xs)

/-- Lines 232-233: group by `description`, sort descending by summed amount,
keep the top 10 (`.head(10)`). -/
def top_procedimientos (df : List TransactionRecord) : List (String × ℚ) :=
  (sortDesc (groupby_description df)).take 10

/-- Case-insensitive literal substring test: the semantics of
`Series.str.contains(q, case=False)` for queries without regex
metacharacters. -/
def containsCI (hay needle : String) : Bool :=
  decide ((needle.data.map Char.toLower) <:+: (hay.data.map Char.toLower))

/-- `astype(str)` on one cell of an object column: Python `None` becomes the
string `"None"`. -/
def astypeStr (x : Option String) : String :=
  match x with
  | some s => s
  | none => "None"

/-- Lines 254-257: the search mask — `raw_patient_name` or `description`
(after `astype(str)`) contains the query case-insensitively.  Note the code
consults only these two columns. -/
def searchMask (r : TransactionRecord) (q : String) : Bool :=
  containsCI (astypeStr r.raw_patient_name) q ||
  containsCI (astypeStr r.description) q

/-- Line 258: `df_results = df[mask]` over the full (unfiltered) collection. -/
def df_results (df : List TransactionRecord) (q : String) : List TransactionRecord :=
  df.filter (fun r => searchMask r q)

/-- The search predicate as §4.4 of the spec words it (for comparison with
`searchMask`): ANY of `raw_patient_name`, `description`, `procedure_code`
contains the query case-insensitively, nulls read as empty strings. -/
def specSearchMatch (r : TransactionRecord) (q : String) : Bool :=
  containsCI (r.raw_patient_name.getD "") q ||
  containsCI (r.description.getD "") q ||
  containsCI (r.procedure_code.getD "") q

/-! ### Concrete sample rows used by witnesses and counterexamples -/

/-- A row whose only match for the query `"2104051"` is its procedure code
(the UI's own placeholder example, line 250). -/
def c1row : RawRow :=
  ⟨some ⟨2024, 2, 10⟩, none, some 80, "CAS_A", some "Consulta general",
    some "LOPEZ, Ana", some "2104051"⟩

/-- A fully degenerate raw row: every coercible field absent/unparseable. -/
def c2row : RawRow :=
  ⟨none, none, none, "AMCA", none, none, none⟩

/-- A well-formed normalized record with amount 100. -/
def c4rec : TransactionRecord :=
  ⟨some ⟨2024, 1, 1⟩, none, 100, "AMCA", none, none, none, (2024, 1), 2024,
    "AMCA (Sociedad/Privado)", "Sin Descripción"⟩

/-- A row with a parseable payment date (normalization ignores `now` on it). -/
def c9good : RawRow :=
  ⟨some ⟨2023, 7, 9⟩, none, some 45, "CAS_H", some "Curación",
    some "RIOS, Pia", some "555"⟩

/-- A row with a missing/unparseable payment date: normalization stamps it
with the run-time timestamp. -/
def c9bad : RawRow :=
  ⟨none, none, some 5, "AMCA", some "Cirugía", some "SOTO, Ana", some "123"⟩

/-- A row whose `description` is null but whose amount is 100. -/
def c10row : RawRow :=
  ⟨some ⟨2024, 3, 1⟩, none, some 100, "CAS_H", none, some "DIAZ, Luis",
    some "999"⟩

/-! ## Helper lemmas -/

/-- Splitting a summed column by a Boolean predicate on rows. -/
theorem sum_map_filter_not_split {α : Type} (f : α → ℚ) (p : α → Bool) (l : List α) :
    ((l.filter p).map f).sum + ((l.filter (fun x => !p x)).map f).sum = (l.map f).sum := by
  induction l with
  | nil => simp
  | cons x xs ih =>
    by_cases hp : p x
    · simp only [List.filter_cons, hp, Bool.not_true, if_pos, if_neg, List.map_cons,
        List.sum_cons, ite_true, ite_false, Bool.false_eq_true, not_false_eq_true]
      linarith [ih]
    · simp only [List.filter_cons, hp, Bool.not_false, List.map_cons, List.sum_cons,
        ite_true, ite_false, Bool.false_eq_true, if_neg, not_false_eq_true]
      linarith [ih]

/-- Grouping by a key column and summing each group conserves the total sum,
for any duplicate-free key list covering every row's key. -/
theorem sum_over_groups {α K : Type} [DecidableEq K] (label : α → K) (f : α → ℚ) :
    ∀ ks : List K, ks.Nodup → ∀ l : List α, (∀ x ∈ l, label x ∈ ks) →
      (ks.map (fun k => ((l.filter (fun x => decide (label x = k))).map f).sum)).sum
        = (l.map f).sum := by
  intro ks
  induction ks with
  | nil =>
    intro _ l hl
    have hnil : l = [] := by
      cases l with
      | nil => rfl
      | cons a as => exact absurd (hl a (List.mem_cons_self a as)) (List.not_mem_nil _)
    subst hnil
    simp
  | cons k ks ih =>
    intro hnd l hl
    have hknotin : k ∉ ks := (List.nodup_cons.mp hnd).1
    have hndks : ks.Nodup := (List.nodup_cons.mp hnd).2
    have hsplit := sum_map_filter_not_split f (fun x => decide (label x = k)) l
    have hmem' : ∀ x ∈ l.filter (fun x => !decide (label x = k)), label x ∈ ks := by
      intro x hx
      rcases List.mem_filter.mp hx with ⟨hxl, hxne⟩
      have hne : label x ≠ k := by simpa using hxne
      rcases List.mem_cons.mp (hl x hxl) with h | h
      · exact absurd h hne
      · exact h
    have htail : ∀ k' ∈ ks,
        ((l.filter (fun x => decide (label x = k'))).map f).sum
          = (((l.filter (fun x => !decide (label x = k))).filter
              (fun x => decide (label x = k'))).map f).sum := by
      intro k' hk'
      have hne : k' ≠ k := fun h => hknotin (h ▸ hk')
      have hfe : (l.filter (fun x => !decide (label x = k))).filter
          (fun x => decide (label x = k')) = l.filter (fun x => decide (label x = k')) := by
        rw [List.filter_filter]
        apply List.filter_congr
        intro x _
        by_cases h : label x = k'
        · simp [h, hne]
        · simp [h]
      rw [hfe]
    simp only [List.map_cons, List.sum_cons]
    rw [List.map_congr_left htail, ih hndks _ hmem']
    exact hsplit

/-! ## Claim theorems -/

/-- Claim C2: every record produced by normalization has a non-null
`payment_date` — an absent or unparseable value is replaced by the
normalization-time current timestamp — and a numeric `net_amount`,
with absent or unparseable values becoming 0. -/
theorem normalization_defaults (now : Date) (rows : List RawRow) :
    (∀ rec ∈ load_data now rows, rec.payment_date.isSome = true) ∧
    (∀ r : RawRow,
      (normalizeRow now r).payment_date = some (r.payment_date.getD now) ∧
      (r.payment_date = none → (normalizeRow now r).payment_date = some now) ∧
      (normalizeRow now r).net_amount = r.net_amount.getD 0 ∧
      (r.net_amount = none → (normalizeRow now r).net_amount = 0)) := by
  constructor
  · intro rec hrec
    obtain ⟨r, _, rfl⟩ := List.mem_map.mp hrec
    rfl
  · intro r
    refine ⟨rfl, fun h => ?_, rfl, fun h => ?_⟩
    · simp [normalizeRow, fillna, h]
    · simp [normalizeRow, h]

/-- Concrete instance of C2: the fully degenerate row is stamped with the
run-time date and gets amount 0; the collection-level invariant holds on a
one-row load. -/
theorem normalization_defaults_witness :
    (normalizeRow ⟨2024, 5, 2⟩ c2row).payment_date = some ⟨2024, 5, 2⟩ ∧
    (normalizeRow ⟨2024, 5, 2⟩ c2row).net_amount = 0 ∧
    (normalizeRow ⟨2024, 5, 2⟩ c2row).payment_date.isSome = true := by
  refine ⟨?_, ?_, ?_⟩
  · exact ((normalization_defaults ⟨2024, 5, 2⟩ []).2 c2row).2.1 rfl
  · exact ((normalization_defaults ⟨2024, 5, 2⟩ []).2 c2row).2.2.2 rfl
  · exact (normalization_defaults ⟨2024, 5, 2⟩ [c2row]).1 _ (List.mem_cons_self _ _)

/-- Claim C3: the filter returns exactly the records whose year equals the
selection, whose origin label is in the selected set, and — only when the
month set is non-empty — whose period bucket is in the month set; an empty
month set imposes no month restriction, while an empty origin set yields an
empty result. -/
theorem df_filtered_spec (df : List TransactionRecord) (y : Int)
    (srcs : List String) (months : List (Int × Nat)) (r : TransactionRecord) :
    (r ∈ df_filtered df y srcs months ↔
      r ∈ df ∧ r.anio = y ∧ r.origen_label ∈ srcs ∧
        (months ≠ [] → r.mes ∈ months)) ∧
    df_filtered df y [] months = [] := by
  constructor
  · cases months with
    | nil =>
      simp [df_filtered, List.mem_filter, and_assoc]
    | cons m ms =>
      simp only [df_filtered, List.isEmpty_cons, List.mem_filter,
        decide_eq_true_eq, ne_eq, reduceCtorEq, not_false_eq_true,
        forall_const, Bool.false_eq_true, if_false]
      tauto
  · cases months with
    | nil =>
      simp [df_filtered, List.filter_eq_nil_iff]
    | cons m ms =>
      simp [df_filtered, List.filter_eq_nil_iff]

/-- Claim C6: filtering with the full set of origin labels present in the
data and an empty month set is exactly the year-matching subset — the origin
and month axes are no-ops in that case. -/
theorem df_filtered_all_sources (df : List TransactionRecord) (y : Int) :
    df_filtered df y (sources_of df) [] = df.filter (fun r => decide (r.anio = y)) := by
  unfold df_filtered
  simp only [List.isEmpty_nil, if_true]
  apply List.filter_congr
  intro r hr
  have hmem : r.origen_label ∈ sources_of df :=
    List.mem_dedup.mpr (List.mem_map_of_mem _ hr)
  rw [decide_eq_decide]
  exact and_iff_left hmem

/-- Claim C4: the average ticket is the total amount divided by the count
when the count is positive, and 0 on an empty collection; as a total
function into `ℚ` it can neither fault nor produce an undefined value. -/
theorem ticket_promedio_spec (df : List TransactionRecord) :
    (0 < total_tx df → ticket_promedio df = total_ingreso df / (total_tx df : ℚ)) ∧
    (total_tx df = 0 → ticket_promedio df = 0) := by
  unfold ticket_promedio
  constructor
  · intro h
    rw [if_pos h]
  · intro h
    rw [if_neg (by omega)]

/-- Concrete instance of C4: a one-row collection takes the quotient branch,
the empty collection returns 0. -/
theorem ticket_promedio_witness :
    0 < total_tx [c4rec] ∧
    ticket_promedio [c4rec] = total_ingreso [c4rec] / (total_tx [c4rec] : ℚ) ∧
    ticket_promedio ([] : List TransactionRecord) = 0 :=
  ⟨by decide, (ticket_promedio_spec [c4rec]).1 (by decide),
    (ticket_promedio_spec []).2 rfl⟩

/-- Claim C7: normalization maps an input sequence of raw rows to an output
sequence of exactly the same length, in the same order (position `i` of the
output is the normalization of position `i` of the input), dropping no row,
whatever the rows contain. -/
theorem load_data_preserves_rows (now : Date) (rows : List RawRow) :
    (load_data now rows).length = rows.length ∧
    ∀ i : Nat, (load_data now rows)[i]? = (rows[i]?).map (normalizeRow now) := by
  refine ⟨List.length_map _ _, fun i => ?_⟩
  simp [load_data]

/-- Claim C5: the per-group sums of the origin group-by add up to the total
amount of the same collection (sum conservation). -/
theorem pie_data_sum_conservation (df : List TransactionRecord) :
    ((pie_data df).map Prod.snd).sum = total_ingreso df := by
  unfold pie_data total_ingreso sources_of
  rw [List.map_map]
  exact sum_over_groups TransactionRecord.origen_label TransactionRecord.net_amount
    _ (List.nodup_dedup _) df (fun r hr => List.mem_dedup.mpr (List.mem_map_of_mem _ hr))

/-- Claim C8: a null description derives the fixed placeholder; a string
longer than 30 characters derives its first 30 characters followed by the
ellipsis marker; a string of at most 30 characters passes through unchanged. -/
theorem glosa_corta_spec (s : String) :
    glosa_corta_of none = "Sin Descripción" ∧
    (30 < s.length → glosa_corta_of (some s) = s.take 30 ++ "...") ∧
    (s.length ≤ 30 → glosa_corta_of (some s) = s) := by
  refine ⟨by decide, fun h => ?_, fun h => ?_⟩
  · show (if s.length > 30 then s.take 30 ++ "..." else s) = s.take 30 ++ "..."
    rw [if_pos h]
  · show (if s.length > 30 then s.take 30 ++ "..." else s) = s
    rw [if_neg (by omega)]

/-- Concrete instance of C8: a 35-character description is cut to 30
characters plus the marker; an 8-character one is unchanged. -/
theorem glosa_corta_witness :
    30 < "a123456789b123456789c123456789EXTRA".length ∧
    glosa_corta_of (some "a123456789b123456789c123456789EXTRA") =
      "a123456789b123456789c123456789EXTRA".take 30 ++ "..." ∧
    "Consulta".length ≤ 30 ∧
    glosa_corta_of (some "Consulta") = "Consulta" :=
  ⟨by decide, (glosa_corta_spec "a123456789b123456789c123456789EXTRA").2.1 (by decide),
    by decide, (glosa_corta_spec "Consulta").2.2 (by decide)⟩

/-- Counterexample to C9 as stated: a row with a missing/unparseable
`payment_date` is stamped with the run-time timestamp (line 88), so the same
input normalized at two different times yields different outputs. -/
theorem load_data_time_dependent :
    load_data ⟨2024, 1, 1⟩ [c9bad] ≠ load_data ⟨2025, 1, 1⟩ [c9bad] := by
  decide

/-- Claim C9 (amended): normalization is pure and deterministic given the
input rows and the normalization-time timestamp; whenever every input row
has a parseable `payment_date`, the output does not depend on that
timestamp at all. -/
theorem load_data_deterministic (t1 t2 : Date) (rows : List RawRow)
    (h : ∀ r ∈ rows, r.payment_date ≠ none) :
    load_data t1 rows = load_data t2 rows := by
  unfold load_data
  apply List.map_congr_left
  intro r hr
  cases hpd : r.payment_date with
  | none => exact absurd hpd (h r hr)
  | some d => simp [normalizeRow, fillna, hpd]

/-- Concrete instance of the amended C9: on a row with a parseable payment
date, two normalization runs a year apart agree. -/
theorem load_data_deterministic_witness :
    load_data ⟨2024, 1, 1⟩ [c9good] = load_data ⟨2025, 1, 1⟩ [c9good] :=
  load_data_deterministic ⟨2024, 1, 1⟩ ⟨2025, 1, 1⟩ [c9good] (by decide)

/-- Counterexample to C10 as stated: a collection whose single record has a
null `description` produces an empty description group-by — pandas `groupby`
drops null keys (`dropna=True` default) — so the record contributes no row,
rather than forming its own group. -/
theorem null_description_contributes_no_row :
    (load_data ⟨2024, 3, 1⟩ [c10row]).length = 1 ∧
    (load_data ⟨2024, 3, 1⟩ [c10row]).map TransactionRecord.description = [none] ∧
    groupby_description (load_data ⟨2024, 3, 1⟩ [c10row]) = [] ∧
    top_procedimientos (load_data ⟨2024, 3, 1⟩ [c10row]) = [] := by
  decide

/-- Claim C10 (amended): in the description group-by feeding the top-N
ranking, a raw null description is indeed not replaced by a placeholder
upstream, but as a null group key it is dropped from the grouping entirely:
the grouped result of a collection equals that of the collection with its
null-description records removed, so such records contribute no row. -/
theorem groupby_description_ignores_null (now : Date) (r0 : RawRow)
    (df : List TransactionRecord) :
    (normalizeRow now r0).description = r0.description ∧
    groupby_description df
      = groupby_description (df.filter (fun r => r.description.isSome)) := by
  refine ⟨rfl, ?_⟩
  unfold groupby_description
  have hkeys : (df.filter (fun r => r.description.isSome)).filterMap
      TransactionRecord.description = df.filterMap TransactionRecord.description := by
    induction df with
    | nil => rfl
    | cons r rs ih =>
      cases hd : r.description with
      | none => simp [List.filter_cons, List.filterMap_cons, hd, ih]
      | some s => simp [List.filter_cons, List.filterMap_cons, hd, ih]
  rw [hkeys]
  apply List.map_congr_left
  intro k _
  have hfe : (df.filter (fun r => r.description.isSome)).filter
      (fun r => decide (r.description = some k))
      = df.filter (fun r => decide (r.description = some k)) := by
    rw [List.filter_filter]
    apply List.filter_congr
    intro r _
    cases hd : r.description with
    | none => simp [hd]
    | some s => simp [hd]
  rw [hfe]

/-- Claim C1, evaluated at the failing input: the search mask (lines
254-257) consults only `raw_patient_name` and `description`, so the query
`"2104051"` — the UI's own placeholder example of a code search — misses the
record whose `procedure_code` is exactly `"2104051"`, although the spec's
predicate (any of the three fields, §4.4) matches it. -/
theorem search_omits_procedure_code :
    df_results (load_data ⟨2024, 2, 10⟩ [c1row]) "2104051" = [] ∧
    specSearchMatch (normalizeRow ⟨2024, 2, 10⟩ c1row) "2104051" = true := by
  decide
